import Mathlib

/-!
Verification of the EWS service dispatch framework (`exchangelib/services.py`).

The definitions below are a shallow embedding of the source file
`src/exchangelib/services.py`.  XML trees are modelled as a simple inductive
type, Python exceptions as an error type carried in `Except`, and the
`vars(errors)[code]` lookup into the open error-code vocabulary as a boolean
registry predicate `reg : String → Bool` (true exactly when the code names an
error class in the `errors` module).  Collaborator code that is not part of
the source file (`errors.py`, `util.py`, `transport.py`) is modelled from the
spec and marked as such in the corresponding doc comments.
-/

namespace EWS

/-- XML element, modelling `xml.etree.cElementTree.Element`: a tag, an
attribute list, optional text and a list of child elements. -/
inductive XmlElem : Type where
  | node (tag : String) (attrs : List (String × String)) (text : Option String)
         (children : List XmlElem)

def XmlElem.tag : XmlElem → String
  | .node t _ _ _ => t

def XmlElem.attrs : XmlElem → List (String × String)
  | .node _ a _ _ => a

def XmlElem.text : XmlElem → Option String
  | .node _ _ x _ => x

def XmlElem.children : XmlElem → List XmlElem
  | .node _ _ _ c => c

/-- `Element.get(name)`: attribute lookup, `None` when the attribute is absent. -/
def XmlElem.get (e : XmlElem) (name : String) : Option String :=
  List.lookup name e.attrs

/-- `Element.find(name)`: first direct child whose tag matches, else `None`. -/
def XmlElem.find (e : XmlElem) (name : String) : Option XmlElem :=
  List.find? (fun c => c.tag == name) e.children

/-- `Element.findall(name)`: all direct children whose tag matches, in
document order. -/
def XmlElem.findall (e : XmlElem) (name : String) : List XmlElem :=
  List.filter (fun c => c.tag == name) e.children

/-- Qualified tag name, the apostrophe-free rendering of the source's
string formatting of a namespace into a brace-delimited prefix. -/
def qn (ns name : String) : String :=
  "\x7b" ++ ns ++ "\x7d" ++ name

/-- Modelled from the spec: namespace constant from the Envelope Codec
collaborator (`transport.py`, not under `src/`).  The exact URI string is
irrelevant to the claims; only that the constants are fixed and distinct. -/
def SOAPNS : String := "soap-ns"

/-- Modelled from the spec: messages namespace constant (see `SOAPNS`). -/
def MNS : String := "messages-ns"

/-- Modelled from the spec: types namespace constant (see `SOAPNS`). -/
def TNS : String := "types-ns"

/-- Modelled from the spec: errors namespace constant (see `SOAPNS`). -/
def ENS : String := "errors-ns"

/-- Modelled from the spec: `get_xml_attr` from the `util` collaborator (not
under `src/`): the text of the first child element with the given qualified
name, or `None` when that child is absent. -/
def get_xml_attr (tree : XmlElem) (name : String) : Option String :=
  match tree.find name with
  | none => none
  | some e => e.text

/-- Python `'%s' % v` for an optional string: `None` prints as `"None"`. -/
def pyStr : Option String → String
  | none => "None"
  | some s => s

/-- ASCII lower-casing of one character, modelling the effect of Python's
`str.lower()` on the attribute values the source compares (`'true'`, `'0'`
and their case variants; non-ASCII case folding is irrelevant here). -/
def py_char_lower (c : Char) : Char :=
  if 65 ≤ c.toNat ∧ c.toNat ≤ 90 then Char.ofNat (c.toNat + 32) else c

/-- Python `str.lower()` (ASCII model). -/
def py_lower (s : String) : String :=
  ⟨s.data.map py_char_lower⟩

/-- One decimal digit, by its ASCII code. -/
def py_digit? (c : Char) : Option Nat :=
  if 48 ≤ c.toNat ∧ c.toNat ≤ 57 then some (c.toNat - 48) else none

/-- Accumulate decimal digits; `none` accumulator means no digit seen yet,
and any non-digit character fails the whole parse. -/
def py_nat_digits? : List Char → Option Nat → Option Nat
  | [], acc => acc
  | c :: cs, acc =>
    match py_digit? c, acc with
    | some d, some a => py_nat_digits? cs (some (a * 10 + d))
    | some d, none => py_nat_digits? cs (some d)
    | none, _ => none

/-- Python `int(s)` for a decimal string with an optional leading minus
sign, `ValueError` (modelled as `none`) otherwise.  Surrounding whitespace
and a leading plus sign, which Python would also accept, play no role in the
source's inputs. -/
def py_int? (s : String) : Option Int :=
  match s.data with
  | '-' :: cs => (py_nat_digits? cs none).map (fun n => -(n : Int))
  | cs => (py_nat_digits? cs none).map (fun n => (n : Int))

/-- Python exceptions raised by the dispatch framework.  Classes from
`errors.py` (not under `src/`) are modelled from the spec taxonomy:
`classified_error code value` stands for the error class named `code`
obtained through the `vars(errors)[code]` registry lookup (carrying its
`value` message), `ews_warning` for `EWSWarning`, and the remaining
constructors for `TransportError`, `SOAPError`, `NotImplementedError` and
the builtin exceptions the source can raise (`AssertionError` from `assert`,
`ValueError` from `int()`, `TypeError` from `int(None)`, `AttributeError`
from attribute access on `None`/`True`).  `fuel_exhausted` is a modelling
artifact of bounding the paging loop. -/
inductive EWSError : Type where
  | transport_error (msg : String)
  | soap_error (msg : String)
  | ews_warning (value : Option String)
  | classified_error (code : String) (value : Option String)
  | not_implemented_error (msg : String)
  | assertion_error
  | value_error
  | type_error
  | attribute_error
  | fuel_exhausted
deriving DecidableEq, Repr

/-- Modelled from the spec: the error-code vocabulary known to this module.
These are exactly the error class names imported from `errors` at the top of
`services.py`; `vars(errors)` contains at least these names. -/
def known_error_codes : List String :=
  ["EWSWarning", "TransportError", "SOAPError", "ErrorTimeoutExpired",
   "ErrorBatchProcessingStopped", "ErrorQuotaExceeded", "ErrorCannotDeleteObject",
   "ErrorCreateItemAccessDenied", "ErrorFolderNotFound", "ErrorNonExistentMailbox",
   "ErrorMailboxStoreUnavailable", "ErrorImpersonateUserDenied",
   "ErrorInternalServerError", "ErrorInternalServerTransientError",
   "ErrorNoRespondingCASInDestinationSite", "ErrorImpersonationFailed",
   "ErrorMailboxMoveInProgress", "ErrorAccessDenied", "ErrorConnectionFailed",
   "RateLimitError", "ErrorServerBusy", "ErrorTooManyObjectsOpened",
   "ErrorInvalidLicense"]

/-- Modelled from the spec: the concrete registry predicate for the
`vars(errors)[code]` lookup, true exactly on the known error class names. -/
def default_reg (code : String) : Bool :=
  known_error_codes.contains code

/-- Message text of the `TransportError` raised on an empty `ResponseCode`. -/
def empty_code_message (text xml : Option String) : String :=
  "Empty ResponseCode in ResponseMessage (MessageText: " ++ pyStr text ++
    ", MessageXml: " ++ pyStr xml ++ ")"

/-- Message text of the `TransportError` raised on an unknown `ResponseCode`. -/
def unknown_code_message (code : String) (text xml : Option String) : String :=
  "Unknown ResponseCode in ResponseMessage: " ++ code ++ " (MessageText: " ++
    pyStr text ++ ", MessageXml: " ++ pyStr xml ++ ")"

/-- `EWSService._raise_errors(code, text, xml)`: success on `'NoError'`, a
`TransportError` on an empty or absent code, the registered error class on a
known code, and an unknown-code `TransportError` otherwise.  The Python
checks `code == 'NoError'` and then `not code`; matching the `Option` first
is equivalent because `None` is not equal to `'NoError'`. -/
def _raise_errors (reg : String → Bool) (code text xml : Option String) :
    Except EWSError Bool :=
  match code with
  | none => .error (.transport_error (empty_code_message text xml))
  | some c =>
    if c = "NoError" then .ok true
    else if c = "" then .error (.transport_error (empty_code_message text xml))
    else if reg c then .error (.classified_error c text)
    else .error (.transport_error (unknown_code_message c text xml))

/-- `EWSService._raise_warnings(code, text, xml)`: delegate to
`_raise_errors` and convert exactly an `ErrorBatchProcessingStopped` into an
`EWSWarning` carrying its `value`. -/
def _raise_warnings (reg : String → Bool) (code text xml : Option String) :
    Except EWSError Bool :=
  match _raise_errors reg code text xml with
  | .error (.classified_error c v) =>
    if c = "ErrorBatchProcessingStopped" then .error (.ews_warning v)
    else .error (.classified_error c v)
  | r => r

/-- Result of `_get_element_container`: the Python function returns either
the boolean `True` or a container `Element` (or raises). -/
inductive ContainerResult : Type where
  | bool_val (b : Bool)
  | elem_val (e : XmlElem)

/-- `EWSService._get_element_container(message, name)`: on
`ResponseClass='Success'` with `ResponseCode='NoError'` return `True` when no
container name is expected, else the container child (a `TransportError` when
it is missing); on `ResponseClass='Warning'` delegate to `_raise_warnings`;
otherwise delegate to `_raise_errors`. -/
def _get_element_container (reg : String → Bool) (message : XmlElem)
    (name : Option String) : Except EWSError ContainerResult :=
  let response_class := message.get "ResponseClass"
  let response_code := get_xml_attr message (qn MNS "ResponseCode")
  let msg_text := get_xml_attr message (qn MNS "MessageText")
  let msg_xml := get_xml_attr message (qn MNS "MessageXml")
  if response_class = some "Success" ∧ response_code = some "NoError" then
    match name with
    | none => .ok (.bool_val true)
    | some n =>
      match message.find n with
      | none => .error (.transport_error
          ("No " ++ n ++ " elements in ResponseMessage"))
      | some container => .ok (.elem_val container)
  else if response_class = some "Warning" then
    Except.map .bool_val (_raise_warnings reg response_code msg_text msg_xml)
  else
    Except.map .bool_val (_raise_errors reg response_code msg_text msg_xml)

/-- Declarative metadata of a concrete service class: its
`element_container_name`, `element_name` and `extra_element_names`
class attributes. -/
structure ServiceSpec : Type where
  service_name : String
  element_container_name : Option String
  element_name : String
  extra_element_names : List String

/-- `EWSService._get_elements_in_container(container)`: all children matching
`element_name` first, then, for each name in `extra_element_names` in
declaration order, all children matching that name. -/
def _get_elements_in_container (svc : ServiceSpec) (container : XmlElem) :
    List XmlElem :=
  container.findall svc.element_name ++
    List.flatten (svc.extra_element_names.map (fun n => container.findall n))

/-- One entry of the list built by `_get_elements_in_response`: either a
`(flag, message)` status pair or a raw extracted element. -/
inductive OutEntry : Type where
  | status (flag : Bool) (message : Option String)
  | element (e : XmlElem)

/-- Loop body of `EWSService._get_elements_in_response` for one response
message: extract the container; extend with the container's elements when it
is an `Element`, append `(container, None)` when it is a boolean,
append `(False, '%s' % e.value)` when an `EWSWarning` was raised, and
propagate every other exception (in particular `ErrorTimeoutExpired` and
`ErrorBatchProcessingStopped`, which the source re-raises explicitly before
the `EWSWarning` handler). -/
def _get_elements_in_response_step (reg : String → Bool) (svc : ServiceSpec)
    (msg : XmlElem) : Except EWSError (List OutEntry) :=
  match _get_element_container reg msg svc.element_container_name with
  | .ok (.elem_val container) =>
    .ok ((_get_elements_in_container svc container).map .element)
  | .ok (.bool_val b) => .ok [.status b none]
  | .error (.ews_warning v) => .ok [.status false (some (pyStr v))]
  | .error e => .error e

/-- `EWSService._get_elements_in_response(response)`: fold the per-message
step over the response messages in order, concatenating the contributions;
any propagated exception aborts the whole batch. -/
def _get_elements_in_response (reg : String → Bool) (svc : ServiceSpec) :
    List XmlElem → Except EWSError (List OutEntry)
  | [] => .ok []
  | msg :: rest =>
    match _get_elements_in_response_step reg svc msg with
    | .error e => .error e
    | .ok es =>
      match _get_elements_in_response reg svc rest with
      | .error e => .error e
      | .ok tl => .ok (es ++ tl)

/-- Detail part of the `SOAPError` message built when the detail code is not
in the registry: `'code: %s msg: %s (...)'`, the serialized detail elided. -/
def soap_detail_message (code msg : Option String) : String :=
  "code: " ++ pyStr code ++ " msg: " ++ pyStr msg

/-- Message text of the final fallback `SOAPError`. -/
def soap_error_message (faultcode faultstring faultactor : Option String)
    (detail : String) : String :=
  "SOAP error code: " ++ pyStr faultcode ++ " string: " ++ pyStr faultstring ++
    " actor: " ++ pyStr faultactor ++ " detail: " ++ detail

/-- Fall-through of `_raise_soap_errors` after the detail branch: raise the
registered class named by `faultcode` with `faultstring` as message when
`faultcode` is known (the `except KeyError: pass` makes an unknown code fall
through), else the final fallback `SOAPError`. -/
def _raise_soap_errors_fallback (reg : String → Bool)
    (faultcode faultstring faultactor : Option String) (detail : String) :
    EWSError :=
  match faultcode with
  | some fc =>
    if reg fc then .classified_error fc faultstring
    else .soap_error (soap_error_message faultcode faultstring faultactor detail)
  | none => .soap_error (soap_error_message faultcode faultstring faultactor detail)

/-- `EWSService._raise_soap_errors(fault)`: when a `detail` child exists and
its `ResponseCode` names a registered error class, raise that class with the
detail `Message` text; otherwise fall back to classifying `faultcode`, and
finally to a generic `SOAPError`.  The function always raises, so it returns
the raised exception. -/
def _raise_soap_errors (reg : String → Bool) (fault : XmlElem) : EWSError :=
  let faultcode := get_xml_attr fault "faultcode"
  let faultstring := get_xml_attr fault "faultstring"
  let faultactor := get_xml_attr fault "faultactor"
  match fault.find "detail" with
  | none => _raise_soap_errors_fallback reg faultcode faultstring faultactor "None"
  | some detail =>
    let code := if (detail.find (qn ENS "ResponseCode")).isSome then
        get_xml_attr detail (qn ENS "ResponseCode") else none
    let msg := if (detail.find (qn ENS "Message")).isSome then
        get_xml_attr detail (qn ENS "Message") else none
    match code with
    | some c =>
      if reg c then .classified_error c msg
      else _raise_soap_errors_fallback reg faultcode faultstring faultactor
        (soap_detail_message code msg)
    | none => _raise_soap_errors_fallback reg faultcode faultstring faultactor
        (soap_detail_message code msg)

/-- `PagingEWSService._get_page(response)`: expects exactly one response
message (`assert len(response) == 1`), resolves the `RootFolder` container,
reads `IncludesLastItemInRange` (truthy on `'true'` or `'0'`, case folded),
defaults a missing `IndexedPagingOffset` to `'1'` when not on the last page,
computes the next offset, and on `TotalItemsInView` parsing to `0` asserts
that the next offset is `0` and drops the container.  Returns the (possibly
dropped) container and the next offset. -/
def _get_page (reg : String → Bool) (response : List XmlElem) :
    Except EWSError (Option XmlElem × Int) :=
  match response with
  | [message] =>
    match _get_element_container reg message (some (qn MNS "RootFolder")) with
    | .error e => .error e
    | .ok (.bool_val _) => .error .attribute_error
    | .ok (.elem_val rootfolder) =>
      match rootfolder.get "IncludesLastItemInRange" with
      | none => .error .attribute_error
      | some last_raw =>
        let is_last_page : Bool :=
          py_lower last_raw == "true" || py_lower last_raw == "0"
        let offset0 := rootfolder.get "IndexedPagingOffset"
        let offset := if offset0.isNone && !is_last_page then some "1" else offset0
        let next_offsetE : Except EWSError Int :=
          if is_last_page then .ok 0
          else match offset with
            | some s =>
              match py_int? s with
              | some n => .ok n
              | none => .error .value_error
            | none => .error .type_error
        match next_offsetE with
        | .error e => .error e
        | .ok next_offset =>
          match rootfolder.get "TotalItemsInView" with
          | none => .error .type_error
          | some total_raw =>
            match py_int? total_raw with
            | none => .error .value_error
            | some total =>
              if total = 0 then
                if next_offset = 0 then .ok (none, 0)
                else .error .assertion_error
              else .ok (some rootfolder, next_offset)
  | _ => .error .assertion_error

/-- Loop of `PagingEWSService._paged_call`.  `fetch offset` stands for
`_get_response_xml(_get_payload(offset))`, the payload build plus transport
round trip, which are external to the loop logic.  The loop accumulates the
elements extracted from each non-dropped page's container and stops when the
next offset is falsy (`0`).  `fuel` bounds the iteration (a modelling
artifact; exhaustion reports `fuel_exhausted`), and the returned `Nat`
counts the fetches performed. -/
def _paged_call_loop (reg : String → Bool) (svc : ServiceSpec)
    (fetch : Int → List XmlElem) :
    Nat → Int → List XmlElem → Nat → Except EWSError (List XmlElem × Nat)
  | 0, _, _, _ => .error .fuel_exhausted
  | fuel + 1, offset, elements, fetches =>
    let response := fetch offset
    match _get_page reg response with
    | .error e => .error e
    | .ok (page, next_offset) =>
      let elementsE : Except EWSError (List XmlElem) :=
        match page with
        | none => .ok elements
        | some p =>
          match svc.element_container_name with
          | none => .error .type_error
          | some ecn =>
            match p.find ecn with
            | none => .error (.transport_error
                ("No " ++ ecn ++ " elements in ResponseMessage"))
            | some container =>
              .ok (elements ++ _get_elements_in_container svc container)
      match elementsE with
      | .error e => .error e
      | .ok elements2 =>
        if next_offset = 0 then .ok (elements2, fetches + 1)
        else _paged_call_loop reg svc fetch fuel next_offset elements2 (fetches + 1)

/-- `PagingEWSService._paged_call`: start the retrieval loop at offset `0`
with no accumulated elements. -/
def _paged_call (reg : String → Bool) (svc : ServiceSpec)
    (fetch : Int → List XmlElem) (fuel : Nat) :
    Except EWSError (List XmlElem × Nat) :=
  _paged_call_loop reg svc fetch fuel 0 [] 0

/-- Modelled from the spec: `chunkify` from the `util` collaborator (not
under `src/`) splits a list into contiguous chunks of at most `chunksize`
items, preserving input order. -/
def chunkify {α : Type} (chunksize : Nat) (items : List α) : List (List α) :=
  if chunksize = 0 ∨ items.isEmpty = true then []
  else items.take chunksize :: chunkify chunksize (items.drop chunksize)
termination_by items.length
decreasing_by
  simp only [List.length_drop]
  have hk : chunksize ≠ 0 := by
    intro hc
    exact ‹¬(chunksize = 0 ∨ items.isEmpty = true)› (Or.inl hc)
  have hi : items ≠ [] := by
    intro hc
    exact ‹¬(chunksize = 0 ∨ items.isEmpty = true)›
      (Or.inr (by simp [hc]))
  have : 0 < items.length := List.length_pos.mpr hi
  omega

/-- Modelled from the spec: the thread pool's `map` (transport collaborator,
not under `src/`) applies `f` to every chunk and returns the results in
input order regardless of completion order; obtaining the results re-raises
the first failure, so the aggregate call fails when any chunk fails. -/
def pool_map {α β : Type} (f : α → Except EWSError β) :
    List α → Except EWSError (List β)
  | [] => .ok []
  | x :: xs =>
    match f x with
    | .error e => .error e
    | .ok y =>
      match pool_map f xs with
      | .error e => .error e
      | .ok ys => .ok (y :: ys)

/-- `EWSPooledService._pool_requests(account, payload_func, items)`:
chop `items` into chunks of `CHUNKSIZE`, let the pool map the per-chunk
dispatch over them, and chain the per-chunk result lists in chunk order.
`get_elements chunk` stands for `_get_elements(payload=payload_func(chunk))`. -/
def _pool_requests {α : Type} (chunksize : Nat)
    (get_elements : List α → Except EWSError (List OutEntry))
    (items : List α) : Except EWSError (List OutEntry) :=
  Except.map List.flatten (pool_map get_elements (chunkify chunksize items))

/-- Trace of one `call` of a service: the payloads built, the requests
handed to the transport, and the outcome.  Used to show that version gating
fails before any payload is built or request sent. -/
structure DispatchTrace (α : Type) : Type where
  payloads_built : List XmlElem
  requests_sent : List XmlElem
  result : Except EWSError α

/-- `GetServerTimeZones._get_payload(returnfulltimezonedata)`. -/
def GetServerTimeZones_payload (returnfulltimezonedata : Bool) : XmlElem :=
  .node "m:GetServerTimeZones"
    [("ReturnFullTimeZoneData", if returnfulltimezonedata then "true" else "false")]
    none []

/-- Message of the `NotImplementedError` raised by the version gate. -/
def gstz_unsupported_message : String :=
  "GetServerTimeZones is only supported for Exchange 2010 servers and later"

/-- `GetServerTimeZones.call`: raise `NotImplementedError` when the
protocol's major version is below 14, before building the payload and before
any request; otherwise build the payload and dispatch it (`dispatch` stands
for `_get_elements`, the transport round trip plus response parsing). -/
def GetServerTimeZones_call {α : Type} (major_version : Int)
    (dispatch : XmlElem → Except EWSError α) (returnfulltimezonedata : Bool) :
    DispatchTrace α :=
  if major_version < 14 then
    ⟨[], [], .error (.not_implemented_error gstz_unsupported_message)⟩
  else
    let payload := GetServerTimeZones_payload returnfulltimezonedata
    ⟨[payload], [payload], dispatch payload⟩

/-- `FindFolder`'s declarative metadata: container `t:Folders`, element
`t:Folder`, and the four extra folder element names in declaration order. -/
def FindFolder_spec : ServiceSpec :=
  ⟨"FindFolder", some (qn TNS "Folders"), qn TNS "Folder",
    [qn TNS "CalendarFolder", qn TNS "ContactsFolder",
     qn TNS "SearchFolder", qn TNS "TasksFolder"]⟩

/-- All children of a container matching the element name or one of the
extra element names, in document order (what `_get_elements_in_container`
would return if it preserved document order). -/
def matching_in_document_order (svc : ServiceSpec) (container : XmlElem) :
    List XmlElem :=
  List.filter
    (fun e => e.tag == svc.element_name || svc.extra_element_names.contains e.tag)
    container.children

/-- Response message built to the wire shape of the spec: a `ResponseClass`
attribute and `ResponseCode`, `MessageText`, `MessageXml` children, plus any
further children (such as a result container). -/
def mk_response_message (cls : String) (code text xml : Option String)
    (extra_children : List XmlElem) : XmlElem :=
  .node (qn MNS "SomeResponseMessage") [("ResponseClass", cls)] none
    ([.node (qn MNS "ResponseCode") [] code [],
      .node (qn MNS "MessageText") [] text [],
      .node (qn MNS "MessageXml") [] xml []] ++ extra_children)

/-- Service metadata used for the dispatcher examples: a declared result
container and a single element name, no extra names. -/
def c1_svc : ServiceSpec :=
  ⟨"GetItem", some (qn MNS "Items"), qn TNS "Message", []⟩

/-- A result item element with an identifying attribute. -/
def mk_item (i : String) : XmlElem :=
  .node (qn TNS "Message") [("id", i)] none []

/-- A success message whose declared container holds two result elements. -/
def c1_msg : XmlElem :=
  mk_response_message "Success" (some "NoError") none none
    [.node (qn MNS "Items") [] none [mk_item "a", mk_item "b"]]

/-- When the service declares no element container, `_get_element_container`
never returns an `Element`: it yields a boolean or raises. -/
theorem _get_element_container_none (reg : String → Bool) (msg : XmlElem) :
    (∃ b, _get_element_container reg msg none = .ok (.bool_val b)) ∨
    (∃ e, _get_element_container reg msg none = .error e) := by
  simp only [_get_element_container]
  split
  · exact Or.inl ⟨true, rfl⟩
  split
  · rcases hr : _raise_warnings reg (get_xml_attr msg (qn MNS "ResponseCode"))
        (get_xml_attr msg (qn MNS "MessageText"))
        (get_xml_attr msg (qn MNS "MessageXml")) with e | b
    · exact Or.inr ⟨e, by simp [hr, Except.map]⟩
    · exact Or.inl ⟨b, by simp [hr, Except.map]⟩
  · rcases hr : _raise_errors reg (get_xml_attr msg (qn MNS "ResponseCode"))
        (get_xml_attr msg (qn MNS "MessageText"))
        (get_xml_attr msg (qn MNS "MessageXml")) with e | b
    · exact Or.inr ⟨e, by simp [hr, Except.map]⟩
    · exact Or.inl ⟨b, by simp [hr, Except.map]⟩

/-- When the service declares no element container, every successful
per-message step contributes exactly one outcome entry. -/
theorem step_no_container_singleton (reg : String → Bool) (svc : ServiceSpec)
    (hc : svc.element_container_name = none) (msg : XmlElem)
    (es : List OutEntry)
    (h : _get_elements_in_response_step reg svc msg = .ok es) :
    ∃ x, es = [x] := by
  unfold _get_elements_in_response_step at h
  rw [hc] at h
  rcases _get_element_container_none reg msg with ⟨b, hb⟩ | ⟨e, he⟩
  · rw [hb] at h
    exact ⟨.status b none, by injection h with h2; exact h2.symm⟩
  · rw [he] at h
    cases e with
    | ews_warning v =>
      exact ⟨.status false (some (pyStr v)), by injection h with h2; exact h2.symm⟩
    | transport_error m => exact absurd h (by simp)
    | soap_error m => exact absurd h (by simp)
    | classified_error c v => exact absurd h (by simp)
    | not_implemented_error m => exact absurd h (by simp)
    | assertion_error => exact absurd h (by simp)
    | value_error => exact absurd h (by simp)
    | type_error => exact absurd h (by simp)
    | attribute_error => exact absurd h (by simp)
    | fuel_exhausted => exact absurd h (by simp)

/-- Claim C1 counterexample: a response-message list of length `N = 1` whose
single Success message carries a declared container holding two matching
result elements makes `_get_elements_in_response` return two outcome
entries, so the returned list does not have exactly `N` entries. -/
theorem c1_counterexample :
    Except.map List.length
        (_get_elements_in_response default_reg c1_svc [c1_msg]) =
      .ok 2 ∧ [c1_msg].length = 1 :=
  ⟨rfl, rfl⟩

/-- Claim C1 (amended): the outcome list is the in-order concatenation of
per-message outcomes; when the service declares no result container, every
message contributes exactly one entry, so the list has exactly `N` entries
and the `i`-th entry is the outcome of the `i`-th response message. -/
theorem c1_amended (reg : String → Bool) (svc : ServiceSpec)
    (msgs : List XmlElem) (es : List OutEntry)
    (hc : svc.element_container_name = none)
    (h : _get_elements_in_response reg svc msgs = .ok es) :
    es.length = msgs.length ∧
    ∀ i (hi : i < msgs.length) (hi2 : i < es.length),
      _get_elements_in_response_step reg svc (msgs.get ⟨i, hi⟩) =
        .ok [es.get ⟨i, hi2⟩] := by
  induction msgs generalizing es with
  | nil =>
    simp only [_get_elements_in_response] at h
    injection h with h2
    subst h2
    exact ⟨rfl, fun i hi => absurd hi (Nat.not_lt_zero i)⟩
  | cons m rest ih =>
    simp only [_get_elements_in_response] at h
    rcases hs : _get_elements_in_response_step reg svc m with e | es1
    · rw [hs] at h; exact absurd h (by simp)
    rw [hs] at h
    rcases ht : _get_elements_in_response reg svc rest with e | tl
    · rw [ht] at h; exact absurd h (by simp)
    rw [ht] at h
    injection h with h2
    obtain ⟨x, hx⟩ := step_no_container_singleton reg svc hc m es1 hs
    subst hx
    obtain ⟨hlen, hidx⟩ := ih tl ht
    subst h2
    refine ⟨by simp [hlen], ?_⟩
    intro i hi hi2
    cases i with
    | zero => simpa using hs
    | succ j =>
      have hj : j < rest.length := by simpa using hi
      have hj2 : j < tl.length := by simpa using hi2
      simpa using hidx j hj hj2

/-- Service metadata with no declared container (as for `DeleteItem`). -/
def c1w_svc : ServiceSpec := ⟨"DeleteItem", none, qn TNS "Message", []⟩

/-- A plain success message with no container. -/
def c1w_msg : XmlElem := mk_response_message "Success" (some "NoError") none none []

/-- Claim C1 amended theorem applied at a concrete one-message response of a
service with no declared container. -/
theorem c1_amended_witness :
    [OutEntry.status true none].length = [c1w_msg].length := by
  have h := c1_amended default_reg c1w_svc [c1w_msg] [OutEntry.status true none]
    rfl rfl
  exact h.1

/-- Claim C3 counterexample: a `ResponseClass='Warning'` message whose
`ResponseCode` is `ErrorAccessDenied` is not treated as success-with-message:
`_raise_warnings` only downgrades `ErrorBatchProcessingStopped`, so the
classified error propagates out of `_get_elements_in_response` as a hard
error. -/
theorem c3_counterexample :
    _get_elements_in_response default_reg c1_svc
        [mk_response_message "Warning" (some "ErrorAccessDenied")
          (some "denied") none []] =
      .error (.classified_error "ErrorAccessDenied" (some "denied")) :=
  rfl

/-- Claim C3 (amended): a Warning whose `ResponseCode` is `'NoError'` is
plain success `(True, None)`; a Warning whose classified error is
`ErrorBatchProcessingStopped` is downgraded to the appended outcome
`(False, messageText)` and nothing is raised; a Warning with any other
recognized error code propagates as that code's hard error. -/
theorem c3_amended (reg : String → Bool) (svc : ServiceSpec)
    (text xml : Option String)
    (hreg : reg "ErrorBatchProcessingStopped" = true) :
    _get_elements_in_response reg svc
        [mk_response_message "Warning" (some "ErrorBatchProcessingStopped")
          text xml []] =
      .ok [.status false (some (pyStr text))] ∧
    _get_elements_in_response reg svc
        [mk_response_message "Warning" (some "NoError") text xml []] =
      .ok [.status true none] ∧
    ∀ c, c ≠ "ErrorBatchProcessingStopped" → c ≠ "NoError" → c ≠ "" →
      reg c = true →
      _get_elements_in_response reg svc
          [mk_response_message "Warning" (some c) text xml []] =
        .error (.classified_error c text) := by
  refine ⟨?_, ?_, ?_⟩
  · simp [_get_elements_in_response, _get_elements_in_response_step,
      _get_element_container, _raise_warnings, _raise_errors,
      mk_response_message, get_xml_attr, XmlElem.find, XmlElem.get,
      XmlElem.children, XmlElem.attrs, XmlElem.tag, XmlElem.text,
      List.find?, List.lookup, qn, MNS, hreg, Except.map]
  · simp [_get_elements_in_response, _get_elements_in_response_step,
      _get_element_container, _raise_warnings, _raise_errors,
      mk_response_message, get_xml_attr, XmlElem.find, XmlElem.get,
      XmlElem.children, XmlElem.attrs, XmlElem.tag, XmlElem.text,
      List.find?, List.lookup, qn, MNS, Except.map]
  · intro c h1 h2 h3 h4
    simp [_get_elements_in_response, _get_elements_in_response_step,
      _get_element_container, _raise_warnings, _raise_errors,
      mk_response_message, get_xml_attr, XmlElem.find, XmlElem.get,
      XmlElem.children, XmlElem.attrs, XmlElem.tag, XmlElem.text,
      List.find?, List.lookup, qn, MNS, h1, h2, h3, h4, Except.map]

/-- Claim C3 amended theorem applied at the concrete registry with concrete
message text, exercising the downgrade case and the hard-error case. -/
theorem c3_amended_witness :
    _get_elements_in_response default_reg c1_svc
        [mk_response_message "Warning" (some "ErrorBatchProcessingStopped")
          (some "stopped") none []] =
      .ok [.status false (some "stopped")] ∧
    _get_elements_in_response default_reg c1_svc
        [mk_response_message "Warning" (some "ErrorServerBusy")
          (some "busy") none []] =
      .error (.classified_error "ErrorServerBusy" (some "busy")) := by
  have h := c3_amended default_reg c1_svc (some "stopped") none rfl
  have h2 := c3_amended default_reg c1_svc (some "busy") none rfl
  exact ⟨h.1, h2.2.2 "ErrorServerBusy" (by decide) (by decide) (by decide) rfl⟩

/-- Claim C5: `_raise_errors` succeeds exactly on `'NoError'`; an absent or
empty code raises the malformed-response `TransportError`; a code in the
registry raises that code's classified error; any other code raises the
generic unknown-code `TransportError`, whose message still carries the
message text and diagnostic xml. -/
theorem c5_raise_errors_classification (reg : String → Bool)
    (text xml : Option String) :
    _raise_errors reg (some "NoError") text xml = .ok true ∧
    _raise_errors reg none text xml =
      .error (.transport_error (empty_code_message text xml)) ∧
    _raise_errors reg (some "") text xml =
      .error (.transport_error (empty_code_message text xml)) ∧
    (∀ c, c ≠ "NoError" → c ≠ "" → reg c = true →
      _raise_errors reg (some c) text xml = .error (.classified_error c text)) ∧
    (∀ c, c ≠ "NoError" → c ≠ "" → reg c = false →
      _raise_errors reg (some c) text xml =
        .error (.transport_error (unknown_code_message c text xml))) := by
  refine ⟨rfl, rfl, rfl, ?_, ?_⟩
  · intro c h1 h2 h3
    simp [_raise_errors, h1, h2, h3]
  · intro c h1 h2 h3
    simp [_raise_errors, h1, h2, h3]

/-- Claim C5 theorem applied at the concrete registry: a known code, an
unknown code. -/
theorem c5_witness :
    _raise_errors default_reg (some "ErrorAccessDenied") (some "t") (some "x") =
      .error (.classified_error "ErrorAccessDenied" (some "t")) ∧
    _raise_errors default_reg (some "ErrorNeverHeardOf") (some "t") none =
      .error (.transport_error
        (unknown_code_message "ErrorNeverHeardOf" (some "t") none)) := by
  have h := c5_raise_errors_classification default_reg (some "t") (some "x")
  have h2 := c5_raise_errors_classification default_reg (some "t") none
  exact ⟨h.2.2.2.1 "ErrorAccessDenied" (by decide) (by decide) rfl,
    h2.2.2.2.2 "ErrorNeverHeardOf" (by decide) (by decide) rfl⟩

/-- A `ResponseClass='Success'` message with `ResponseCode='NoError'` and no
container child. -/
def c9_success_msg : XmlElem :=
  mk_response_message "Success" (some "NoError") none none []

/-- The same message with `ResponseClass='Error'` instead. -/
def c9_error_msg : XmlElem :=
  mk_response_message "Error" (some "NoError") none none []

/-- A `ResponseClass='Success'` message with a non-`NoError` code. -/
def c9_denied_msg : XmlElem :=
  mk_response_message "Success" (some "ErrorAccessDenied") (some "no") none []

/-- Claim C9 counterexample: two messages identical except for their
`ResponseClass` (`'Success'` vs `'Error'`), both with
`ResponseCode='NoError'` and no container child, get different outcomes from
`_get_element_container` when a container is expected: the Success one raises
a `TransportError` for the missing container while the Error one returns
`True` — so the outcome is not determined solely by the `ResponseCode`
child. -/
theorem c9_counterexample :
    c9_success_msg.get "ResponseClass" = some "Success" ∧
    c9_error_msg.get "ResponseClass" = some "Error" ∧
    get_xml_attr c9_success_msg (qn MNS "ResponseCode") =
      get_xml_attr c9_error_msg (qn MNS "ResponseCode") ∧
    _get_element_container default_reg c9_success_msg
        (some (qn MNS "RootFolder")) =
      .error (.transport_error
        ("No " ++ qn MNS "RootFolder" ++ " elements in ResponseMessage")) ∧
    _get_element_container default_reg c9_error_msg
        (some (qn MNS "RootFolder")) =
      .ok (.bool_val true) :=
  ⟨rfl, rfl, rfl, rfl, rfl⟩

/-- Claim C9 (amended): a message with `ResponseClass='Error'` and
`ResponseCode='NoError'` is always treated as bare success `True` (even when
a container is declared); a message with `ResponseClass='Success'` and any
`ResponseCode` other than `'NoError'` behaves exactly as
`_raise_errors(code, text, xml)`, i.e. solely determined by the code, text
and xml children.  Only in the remaining corner — `'NoError'` with a
declared container — does the `ResponseClass` matter, `'Success'`
additionally requiring the container child. -/
theorem c9_amended (reg : String → Bool) (msg : XmlElem) (name : Option String) :
    (msg.get "ResponseClass" = some "Error" →
      get_xml_attr msg (qn MNS "ResponseCode") = some "NoError" →
      _get_element_container reg msg name = .ok (.bool_val true)) ∧
    (msg.get "ResponseClass" = some "Success" →
      get_xml_attr msg (qn MNS "ResponseCode") ≠ some "NoError" →
      _get_element_container reg msg name =
        Except.map ContainerResult.bool_val
          (_raise_errors reg (get_xml_attr msg (qn MNS "ResponseCode"))
            (get_xml_attr msg (qn MNS "MessageText"))
            (get_xml_attr msg (qn MNS "MessageXml")))) := by
  constructor
  · intro hcls hcode
    simp only [_get_element_container, hcls, hcode]
    norm_num
    rfl
  · intro hcls hcode
    simp only [_get_element_container, hcls]
    rw [if_neg (by simp [hcode]), if_neg (by simp)]

/-- Claim C9 amended theorem applied at concrete messages: the Error class
with `NoError` succeeds, and the Success class with `ErrorAccessDenied`
raises that code's classified error. -/
theorem c9_amended_witness :
    _get_element_container default_reg c9_error_msg
        (some (qn MNS "RootFolder")) = .ok (.bool_val true) ∧
    _get_element_container default_reg c9_denied_msg none =
      .error (.classified_error "ErrorAccessDenied" (some "no")) := by
  constructor
  · exact (c9_amended default_reg c9_error_msg (some (qn MNS "RootFolder"))).1
      rfl rfl
  · have h := (c9_amended default_reg c9_denied_msg none).2 rfl (by decide)
    rw [h]
    rfl

/-- Demonstration container whose matching children interleave the primary
and extra element names in document order. -/
def c10_demo : XmlElem :=
  .node (qn TNS "Folders") [] none
    [.node (qn TNS "Folder") [("id", "a")] none [],
     .node (qn TNS "CalendarFolder") [("id", "b")] none [],
     .node (qn TNS "Folder") [("id", "c")] none []]

/-- Claim C10: for every container, `FindFolder`'s element extraction
returns all `Folder` children first, then all `CalendarFolder`,
`ContactsFolder`, `SearchFolder` and `TasksFolder` children, in that
declaration order — and on a container whose matching children interleave,
the result is grouped by element type rather than in the container's
document order. -/
theorem c10_grouped_extraction :
    (∀ container, _get_elements_in_container FindFolder_spec container =
      container.findall (qn TNS "Folder") ++
      container.findall (qn TNS "CalendarFolder") ++
      container.findall (qn TNS "ContactsFolder") ++
      container.findall (qn TNS "SearchFolder") ++
      container.findall (qn TNS "TasksFolder")) ∧
    (_get_elements_in_container FindFolder_spec c10_demo).map XmlElem.tag ≠
      (matching_in_document_order FindFolder_spec c10_demo).map XmlElem.tag := by
  constructor
  · intro container
    simp [_get_elements_in_container, FindFolder_spec, List.append_assoc]
  · decide

/-- A paging root container element with the given attributes and children. -/
def mk_rootfolder (attrs : List (String × String)) (children : List XmlElem) :
    XmlElem :=
  .node (qn MNS "RootFolder") attrs none children

/-- A successful paged response message holding a root container. -/
def mk_page_message (rf : XmlElem) : XmlElem :=
  mk_response_message "Success" (some "NoError") none none [rf]

/-- Claim C2 counterexample: a fetched page with `TotalItemsInView='0'`,
`IncludesLastItemInRange='false'` and `IndexedPagingOffset='5'` makes
`_get_page` fail with the `assert next_offset == 0` assertion instead of
stopping cleanly, and `_paged_call` fails with it — the claimed behavior
does not hold regardless of `IncludesLastItemInRange`. -/
theorem c2_counterexample :
    _get_page default_reg
        [mk_page_message (mk_rootfolder
          [("IncludesLastItemInRange", "false"), ("IndexedPagingOffset", "5"),
           ("TotalItemsInView", "0")] [])] =
      .error .assertion_error ∧
    _paged_call default_reg c1_svc
        (fun _ => [mk_page_message (mk_rootfolder
          [("IncludesLastItemInRange", "false"), ("IndexedPagingOffset", "5"),
           ("TotalItemsInView", "0")] [])]) 5 =
      .error .assertion_error :=
  ⟨rfl, rfl⟩

/-- Root container attribute list with a last-item flag, an optional paging
offset, and a total-items count. -/
def c2_page_attrs (last : String) (off : Option String) (total_raw : String) :
    List (String × String) :=
  [("IncludesLastItemInRange", last)] ++
    (match off with
     | some s => [("IndexedPagingOffset", s)]
     | none => []) ++
    [("TotalItemsInView", total_raw)]

/-- Claim C2 (amended): whenever a fetched page's `TotalItemsInView` parses
to `0`, the pager treats the container as empty, stops after that fetch and
does not fail exactly when the computed next offset is `0`: when
`IncludesLastItemInRange` is truthy (`'true'` or `'0'`, case folded) this
holds regardless of any `IndexedPagingOffset` present, and when the flag is
not truthy it holds whenever the present `IndexedPagingOffset` parses to
`0`; when the flag is not truthy and the present offset parses to a nonzero
value, the `assert next_offset == 0` fails with an `AssertionError` instead
(see the counterexample). -/
theorem c2_amended (reg : String → Bool) (svc : ServiceSpec) (last : String)
    (off : Option String) (total_raw : String) (children : List XmlElem)
    (fuel : Nat)
    (htotal : py_int? total_raw = some 0) :
    ((py_lower last = "true" ∨ py_lower last = "0") →
      _get_page reg
          [mk_page_message (mk_rootfolder (c2_page_attrs last off total_raw)
            children)] = .ok (none, 0) ∧
      _paged_call reg svc
          (fun _ => [mk_page_message (mk_rootfolder
            (c2_page_attrs last off total_raw) children)]) (fuel + 1) =
        .ok ([], 1)) ∧
    (py_lower last ≠ "true" → py_lower last ≠ "0" →
      ∀ s, off = some s →
        (py_int? s = some 0 →
          _get_page reg
              [mk_page_message (mk_rootfolder (c2_page_attrs last off total_raw)
                children)] = .ok (none, 0) ∧
          _paged_call reg svc
              (fun _ => [mk_page_message (mk_rootfolder
                (c2_page_attrs last off total_raw) children)]) (fuel + 1) =
            .ok ([], 1)) ∧
        ∀ n, py_int? s = some n → n ≠ 0 →
          _get_page reg
              [mk_page_message (mk_rootfolder (c2_page_attrs last off total_raw)
                children)] = .error .assertion_error) := by
  constructor
  · intro hlast
    have h1 : _get_page reg
        [mk_page_message (mk_rootfolder (c2_page_attrs last off total_raw)
          children)] = .ok (none, 0) := by
      rcases off with _ | s <;> rcases hlast with h | h <;>
        simp [_get_page, mk_page_message, mk_response_message, mk_rootfolder,
          c2_page_attrs, _get_element_container, get_xml_attr, XmlElem.find,
          XmlElem.get, XmlElem.children, XmlElem.attrs, XmlElem.tag,
          XmlElem.text, List.find?, List.lookup, qn, MNS, h, htotal]
    refine ⟨h1, ?_⟩
    simp [_paged_call, _paged_call_loop, h1]
  · intro h1 h2 s hs
    subst hs
    have hb1 : (py_lower last == "true") = false := beq_eq_false_iff_ne.mpr h1
    have hb2 : (py_lower last == "0") = false := beq_eq_false_iff_ne.mpr h2
    constructor
    · intro hz
      have hp : _get_page reg
          [mk_page_message (mk_rootfolder (c2_page_attrs last (some s) total_raw)
            children)] = .ok (none, 0) := by
        simp [_get_page, mk_page_message, mk_response_message, mk_rootfolder,
          c2_page_attrs, _get_element_container, get_xml_attr, XmlElem.find,
          XmlElem.get, XmlElem.children, XmlElem.attrs, XmlElem.tag,
          XmlElem.text, List.find?, List.lookup, qn, MNS, hb1, hb2, hz, htotal]
      refine ⟨hp, ?_⟩
      simp [_paged_call, _paged_call_loop, hp]
    · intro n hn hnz
      simp [_get_page, mk_page_message, mk_response_message, mk_rootfolder,
        c2_page_attrs, _get_element_container, get_xml_attr, XmlElem.find,
        XmlElem.get, XmlElem.children, XmlElem.attrs, XmlElem.tag,
        XmlElem.text, List.find?, List.lookup, qn, MNS, hb1, hb2, hn, hnz,
        htotal]

/-- Claim C2 amended theorem applied at concrete empty pages: a truthy flag
spelled `'TRUE'` with a stray offset `'7'`, a non-truthy flag with offset
`'0'` (clean stop), and a non-truthy flag with offset `'7'` (assertion
failure). -/
theorem c2_amended_witness :
    _paged_call default_reg c1_svc
        (fun _ => [mk_page_message (mk_rootfolder
          (c2_page_attrs "TRUE" (some "7") "0") [])]) 4 =
      .ok ([], 1) ∧
    _paged_call default_reg c1_svc
        (fun _ => [mk_page_message (mk_rootfolder
          (c2_page_attrs "false" (some "0") "0") [])]) 4 =
      .ok ([], 1) ∧
    _get_page default_reg
        [mk_page_message (mk_rootfolder
          (c2_page_attrs "false" (some "7") "0") [])] =
      .error .assertion_error := by
  have ha := c2_amended default_reg c1_svc "TRUE" (some "7") "0" [] 3 rfl
  have hb := c2_amended default_reg c1_svc "false" (some "0") "0" [] 3 rfl
  have hc := c2_amended default_reg c1_svc "false" (some "7") "0" [] 3 rfl
  refine ⟨(ha.1 (Or.inl rfl)).2, ?_, ?_⟩
  · exact ((hb.2 (by decide) (by decide) "0" rfl).1 rfl).2
  · exact (hc.2 (by decide) (by decide) "7" rfl).2 7 rfl (by decide)

/-- Claim C7 counterexample: a paged response whose root container lacks
`IndexedPagingOffset` while `IncludesLastItemInRange` is not truthy makes the
pager fail after all when `TotalItemsInView` is `'0'`: the assumed offset
`1` trips the `assert next_offset == 0` assertion. -/
theorem c7_counterexample :
    _get_page default_reg
        [mk_page_message (mk_rootfolder
          [("IncludesLastItemInRange", "false"), ("TotalItemsInView", "0")] [])] =
      .error .assertion_error :=
  rfl

/-- Root container attribute list with no `IndexedPagingOffset`. -/
def c7_attrs (last total_raw : String) : List (String × String) :=
  [("IncludesLastItemInRange", last), ("TotalItemsInView", total_raw)]

/-- A result container child carrying the given items (tag matching
`c1_svc`'s declared container name). -/
def c7_container (items : List XmlElem) : XmlElem :=
  .node (qn MNS "Items") [] none items

/-- A final empty page: truthy last-item flag, zero items. -/
def c7_final_rootfolder : XmlElem :=
  mk_rootfolder [("IncludesLastItemInRange", "true"), ("TotalItemsInView", "0")] []

/-- Claim C7 (amended): when the root container lacks `IndexedPagingOffset`
while `IncludesLastItemInRange` is not truthy and `TotalItemsInView` parses
to a nonzero value, the pager does not fail: it assumes offset `1`, and the
retrieval loop continues with a second fetch at that offset; when
`TotalItemsInView` parses to `0` the assertion fails instead (see the
counterexample). -/
theorem c7_amended (reg : String → Bool) (last total_raw : String)
    (total : Int) (items : List XmlElem)
    (h1 : py_lower last ≠ "true") (h2 : py_lower last ≠ "0")
    (ht : py_int? total_raw = some total) (hnz : total ≠ 0) :
    _get_page reg
        [mk_page_message (mk_rootfolder (c7_attrs last total_raw)
          [c7_container items])] =
      .ok (some (mk_rootfolder (c7_attrs last total_raw)
        [c7_container items]), 1) ∧
    _paged_call reg c1_svc
        (fun o => if o = 0 then
            [mk_page_message (mk_rootfolder (c7_attrs last total_raw)
              [c7_container items])]
          else [mk_page_message c7_final_rootfolder]) 2 =
      .ok (_get_elements_in_container c1_svc (c7_container items), 2) := by
  have hb1 : (py_lower last == "true") = false := beq_eq_false_iff_ne.mpr h1
  have hb2 : (py_lower last == "0") = false := beq_eq_false_iff_ne.mpr h2
  have hone : py_int? "1" = some 1 := rfl
  have hp : _get_page reg
      [mk_page_message (mk_rootfolder (c7_attrs last total_raw)
        [c7_container items])] =
      .ok (some (mk_rootfolder (c7_attrs last total_raw)
        [c7_container items]), 1) := by
    simp [hone, _get_page, mk_page_message, mk_response_message, mk_rootfolder,
      c7_attrs, c7_container, _get_element_container, get_xml_attr,
      XmlElem.find, XmlElem.get, XmlElem.children, XmlElem.attrs,
      XmlElem.tag, XmlElem.text, List.find?, List.lookup, qn, MNS,
      hb1, hb2, ht, hnz]
  have hlastpage : _get_page reg [mk_page_message c7_final_rootfolder] =
      .ok (none, 0) := rfl
  refine ⟨hp, ?_⟩
  simp only [_paged_call, _paged_call_loop]
  norm_num
  rw [hp]
  simp only [c1_svc, _paged_call_loop]
  norm_num [hlastpage]
  simp [mk_rootfolder, c7_container, XmlElem.find, XmlElem.children,
    List.find?, XmlElem.tag, qn, MNS]

/-- Claim C7 amended theorem applied at a concrete anomalous page holding
one item, followed by a final empty page. -/
theorem c7_amended_witness :
    _paged_call default_reg c1_svc
        (fun o => if o = 0 then
            [mk_page_message (mk_rootfolder (c7_attrs "false" "3")
              [c7_container [mk_item "a"]])]
          else [mk_page_message c7_final_rootfolder]) 2 =
      .ok (_get_elements_in_container c1_svc (c7_container [mk_item "a"]), 2) := by
  have h := c7_amended default_reg "false" "3" 3 [mk_item "a"]
    (by decide) (by decide) rfl (by decide)
  exact h.2

/-- Unfolding step of `chunkify` on a nonempty list with a nonzero chunk
size. -/
theorem chunkify_step {α : Type} (chunksize : Nat) (items : List α)
    (hz : chunksize ≠ 0) (hne : items ≠ []) :
    chunkify chunksize items =
      items.take chunksize :: chunkify chunksize (items.drop chunksize) := by
  rw [chunkify, if_neg]
  simp [hz, List.isEmpty_iff, hne]

/-- `chunkify` of the empty list is empty. -/
theorem chunkify_nil {α : Type} (chunksize : Nat) :
    chunkify chunksize ([] : List α) = [] := by
  rw [chunkify]
  simp

/-- The pool's ordered map of an always-successful per-chunk function
returns all per-chunk results, in input order. -/
theorem pool_map_all_ok {α β : Type} (f : α → β) (l : List α) :
    pool_map (fun x => .ok (f x)) l = .ok (l.map f) := by
  induction l with
  | nil => rfl
  | cons x xs ih => simp [pool_map, ih]

/-- Claim C4: splitting 230 input items at `chunkSize = 100` produces
exactly the three chunks of sizes 100, 100 and 30, in input order, with
their concatenation equal to the input; and when each chunk dispatch yields
one outcome per input item (in chunk order, as the pool's ordered map
guarantees), `_pool_requests` returns the 230 outcomes in original input
order, the `i`-th outcome being that of the `i`-th input item. -/
theorem c4_chunked_dispatch {α : Type} (items : List α) (g : α → OutEntry)
    (h : items.length = 230) :
    chunkify 100 items =
      [items.take 100, (items.drop 100).take 100,
       ((items.drop 100).drop 100).take 100] ∧
    (chunkify 100 items).map List.length = [100, 100, 30] ∧
    (chunkify 100 items).flatten = items ∧
    _pool_requests 100 (fun chunk => .ok (chunk.map g)) items =
      .ok (items.map g) ∧
    ∀ i (hi : i < items.length) (hi2 : i < (items.map g).length),
      (items.map g).get ⟨i, hi2⟩ = g (items.get ⟨i, hi⟩) := by
  have hne1 : items ≠ [] := by
    intro hh; rw [hh] at h; simp at h
  have hl2 : (items.drop 100).length = 130 := by simp [h]
  have hne2 : items.drop 100 ≠ [] := by
    intro hh; rw [hh] at hl2; simp at hl2
  have hl3 : ((items.drop 100).drop 100).length = 30 := by simp [h]
  have hne3 : (items.drop 100).drop 100 ≠ [] := by
    intro hh; rw [hh] at hl3; simp at hl3
  have hl4 : (((items.drop 100).drop 100).drop 100) = [] := by
    apply List.drop_eq_nil_of_le
    rw [hl3]; omega
  have hch : chunkify 100 items =
      [items.take 100, (items.drop 100).take 100,
       ((items.drop 100).drop 100).take 100] := by
    rw [chunkify_step 100 items (by omega) hne1,
      chunkify_step 100 (items.drop 100) (by omega) hne2,
      chunkify_step 100 ((items.drop 100).drop 100) (by omega) hne3,
      hl4, chunkify_nil]
  have htk3 : ((items.drop 100).drop 100).take 100 = (items.drop 100).drop 100 :=
    List.take_of_length_le (by rw [hl3]; omega)
  have hfl : (chunkify 100 items).flatten = items := by
    rw [hch]
    simp only [List.flatten, List.append_nil]
    rw [htk3, List.take_append_drop, List.take_append_drop]
  refine ⟨hch, ?_, hfl, ?_, ?_⟩
  · rw [hch]
    simp [List.length_take, List.length_drop, h, htk3, hl3]
  · unfold _pool_requests
    rw [pool_map_all_ok (List.map g) (chunkify 100 items)]
    simp [Except.map, ← List.map_flatten, hfl]
  · intro i hi hi2
    simp [List.get_eq_getElem, List.getElem_map]

/-- Claim C4 theorem applied at a concrete 230-element input list. -/
theorem c4_witness :
    (chunkify 100 (List.range 230)).map List.length = [100, 100, 30] ∧
    _pool_requests 100
        (fun chunk => .ok (chunk.map (fun _ => OutEntry.status true none)))
        (List.range 230) =
      .ok ((List.range 230).map (fun _ => OutEntry.status true none)) := by
  have h := c4_chunked_dispatch (List.range 230)
    (fun _ => OutEntry.status true none) (by simp)
  exact ⟨h.2.1, h.2.2.2.1⟩

/-- A SOAP fault element to the wire shape of the spec, with a
`detail/ResponseCode` and a `detail/Message`. -/
def mk_soap_fault (code message : String) : XmlElem :=
  .node (qn SOAPNS "Fault") [] none
    [.node "faultcode" [] (some "soap:Server") [],
     .node "faultstring" [] (some "a fault occurred") [],
     .node "detail" [] none
       [.node (qn ENS "ResponseCode") [] (some code) [],
        .node (qn ENS "Message") [] (some message) []]]

/-- Claim C6: for every error code in the registry, classifying a SOAP
fault whose `detail/ResponseCode` is that code raises the same typed error
(the registered class named by the code) as classifying a `ResponseMessage`
whose `ResponseCode` is that code, each carrying its own message text. -/
theorem c6_fault_and_message_classify_alike (reg : String → Bool)
    (c message : String) (text xml : Option String)
    (h1 : c ≠ "NoError") (h2 : c ≠ "") (h3 : reg c = true) :
    _raise_soap_errors reg (mk_soap_fault c message) =
      .classified_error c (some message) ∧
    _raise_errors reg (some c) text xml = .error (.classified_error c text) := by
  constructor
  · simp [_raise_soap_errors, mk_soap_fault, get_xml_attr, XmlElem.find,
      XmlElem.children, XmlElem.tag, XmlElem.text, List.find?, qn, ENS,
      SOAPNS, h3]
  · simp [_raise_errors, h1, h2, h3]

/-- Claim C6 theorem applied at the concrete registry and the
`ErrorAccessDenied` code. -/
theorem c6_witness :
    _raise_soap_errors default_reg (mk_soap_fault "ErrorAccessDenied" "no") =
      .classified_error "ErrorAccessDenied" (some "no") ∧
    _raise_errors default_reg (some "ErrorAccessDenied") (some "no") none =
      .error (.classified_error "ErrorAccessDenied" (some "no")) := by
  have h := c6_fault_and_message_classify_alike default_reg "ErrorAccessDenied"
    "no" (some "no") none (by decide) (by decide) rfl
  exact h

/-- Claim C8: calling `GetServerTimeZones` against a server whose major
protocol version is below 14 raises the capability `NotImplementedError`
locally: no payload is built and no request reaches the transport. -/
theorem c8_version_gate {α : Type} (major_version : Int)
    (dispatch : XmlElem → Except EWSError α) (returnfulltimezonedata : Bool)
    (h : major_version < 14) :
    (GetServerTimeZones_call major_version dispatch
        returnfulltimezonedata).payloads_built = [] ∧
    (GetServerTimeZones_call major_version dispatch
        returnfulltimezonedata).requests_sent = [] ∧
    (GetServerTimeZones_call major_version dispatch
        returnfulltimezonedata).result =
      .error (.not_implemented_error gstz_unsupported_message) := by
  simp [GetServerTimeZones_call, h]

/-- Claim C8 theorem applied at major version 13 (an Exchange 2007 server)
with a dispatcher that would succeed if reached. -/
theorem c8_witness :
    (GetServerTimeZones_call 13 (fun _ => Except.ok true)
        false).requests_sent = [] := by
  have h := c8_version_gate 13 (fun _ => Except.ok (true : Bool)) false
    (by norm_num)
  exact h.2.1

end EWS
